import Mathlib

/-!
Shallow embedding of the NutriWise nutrition-tracking application core:
the data model (`types.ts`), the dashboard derived-metric pipeline
(`src/components/EntryForm.tsx`, Dashboard component), the quantity
rescaling of food items (`updateItemQuantity`), the retry wrapper and
exercise estimator of `src/services/geminiService.ts`, and the
backup export/import of the application root component.

JavaScript numbers are modelled as exact rationals (`ℚ`), `Math.round`
as `jround` (floor of x + 1/2, which is JavaScript round-half-up),
millisecond timestamps as integers, and the local-midnight day bucket
of `date-fns.isSameDay`/`startOfDay` as an integer day index obtained
by floor-dividing the timezone-shifted timestamp by 86 400 000 ms.
-/

namespace NutriWise

/-- JavaScript `Math.round`: round half up, i.e. `⌊x + 1/2⌋`. -/
def jround (q : ℚ) : ℤ := ⌊q + 1/2⌋

/-- `charsHasPre p t`: the character list `p` is an initial segment of `t`
(helper for JavaScript `String.prototype.includes`). -/
def charsHasPre : List Char → List Char → Bool
  | [], _ => true
  | _ :: _, [] => false
  | p :: ps, c :: cs => p == c && charsHasPre ps cs

/-- `containsSub pat t`: the character list `pat` occurs contiguously in `t`. -/
def containsSub (pat : List Char) : List Char → Bool
  | [] => charsHasPre pat []
  | c :: cs => charsHasPre pat (c :: cs) || containsSub pat cs

/-- JavaScript `s.includes(pat)`: `pat` occurs as a substring of `s`. -/
def strIncludes (s pat : String) : Bool := containsSub pat.data s.data

/-- JavaScript `s.toLowerCase()` (characterwise ASCII lowering). -/
def lowerStr (s : String) : String := String.mk (s.data.map Char.toLower)

/-- Local day bucket of a millisecond timestamp: floor-divide the
timezone-shifted time by the number of milliseconds in a day.  This models
`startOfDay`/`isSameDay` of date-fns with local offset `tz`. -/
def dayIndex (tz t : ℤ) : ℤ := (t + tz).fdiv 86400000

/-! ## Data model (`types.ts`) -/

inductive Gender
  | male
  | female
  | other
deriving DecidableEq, Repr

inductive ActivityLevel
  | sedentary
  | light
  | moderate
  | active
  | athlete
deriving DecidableEq, Repr

inductive Goal
  | lose_fat
  | maintain
  | gain_muscle
deriving DecidableEq, Repr

inductive Intensity
  | low
  | medium
  | high
deriving DecidableEq, Repr

structure UserProfile where
  name : String
  age : ℚ
  heightCm : ℚ
  weightKg : ℚ
  gender : Gender
  activityLevel : ActivityLevel
  goal : Goal
  dietaryPreferences : String
deriving DecidableEq, Repr

structure FoodItem where
  name : String
  quantity : ℚ
  unit : String
  calories : ℚ
  protein : ℚ
  carbs : ℚ
  fat : ℚ
  baseCalories : ℚ
  baseProtein : ℚ
  baseCarbs : ℚ
  baseFat : ℚ
deriving DecidableEq, Repr

structure ExerciseItem where
  name : String
  durationMinutes : ℚ
  caloriesBurned : ℚ
  intensity : Intensity
deriving DecidableEq, Repr

inductive EntryType
  | food
  | exercise
  | note
deriving DecidableEq, Repr

/-- `LogEntry` of `types.ts`: the `items`, `exercise` and `noteContent`
fields are optional exactly as in the TypeScript interface. -/
structure LogEntry where
  id : String
  timestamp : ℤ
  type : EntryType
  items : Option (List FoodItem)
  exercise : Option ExerciseItem
  noteContent : Option String
deriving DecidableEq, Repr

structure ChatMessage where
  id : String
  role : String
  text : String
  timestamp : ℤ
deriving DecidableEq, Repr

/-! ## Dashboard derived metrics (`src/components/EntryForm.tsx`, Dashboard) -/

/-- Daily totals accumulator of the Dashboard `todayTotals` reduce. -/
structure Totals where
  calories : ℚ
  protein : ℚ
  carbs : ℚ
  fat : ℚ
  burned : ℚ
deriving DecidableEq, Repr

/-- The reducer body of the Dashboard `todayTotals` useMemo (lines 574-586):
food entries with items add every item's macros, exercise entries with an
exercise add its `caloriesBurned`, everything else leaves the accumulator. -/
def totalsStep (acc : Totals) (log : LogEntry) : Totals :=
  if log.type == EntryType.food then
    match log.items with
    | some items =>
        items.foldl
          (fun a item =>
            { a with
              calories := a.calories + item.calories
              protein := a.protein + item.protein
              carbs := a.carbs + item.carbs
              fat := a.fat + item.fat })
          acc
    | none => acc
  else if log.type == EntryType.exercise then
    match log.exercise with
    | some ex => { acc with burned := acc.burned + ex.caloriesBurned }
    | none => acc
  else acc

/-- Dashboard `todayTotals` (lines 570-586): filter the log store down to the
entries on the same local day as `now`, then reduce with `totalsStep` from the
all-zero accumulator. -/
def todayTotals (logs : List LogEntry) (tz now : ℤ) : Totals :=
  let todayLogs := logs.filter (fun log => dayIndex tz log.timestamp == dayIndex tz now)
  todayLogs.foldl totalsStep ⟨0, 0, 0, 0, 0⟩

/-- The per-entry strength/high-intensity predicate of the Dashboard
`hasStrength` check (lines 589-595). -/
def strengthSignal (l : LogEntry) : Bool :=
  l.type == EntryType.exercise &&
    (match l.exercise with
     | some ex =>
         ex.intensity == Intensity.high
           || strIncludes (lowerStr ex.name) "weight"
           || strIncludes (lowerStr ex.name) "strength"
           || strIncludes (lowerStr ex.name) "lift"
     | none => false)

/-- Dashboard `hasStrength` (lines 589-595): some entry of the given day's
logs is an exercise entry with high intensity or a strength-flavoured name. -/
def hasStrength (todayLogs : List LogEntry) : Bool :=
  todayLogs.any strengthSignal

/-- One point of the Dashboard 7-day chart; the weekday label produced by
`format(date, 'EEE')` is presentation only and is represented here by the
day index itself. -/
structure ChartPoint where
  day : ℤ
  calories : ℚ
deriving DecidableEq, Repr

/-- The reducer body of the inner reduce of the Dashboard `chartData`
useMemo (lines 606-611): food entries with items add their item calorie sum,
everything else leaves the running sum. -/
def chartStep (sum : ℚ) (log : LogEntry) : ℚ :=
  if log.type == EntryType.food then
    match log.items with
    | some items => sum + items.foldl (fun s item => s + item.calories) 0
    | none => sum
  else sum

/-- The inner reduce of the Dashboard `chartData` useMemo (lines 606-611):
sum the item calories of the day's food entries, ignoring everything else. -/
def dayFoodCalories (dailyLogs : List LogEntry) : ℚ :=
  dailyLogs.foldl chartStep 0

/-- Dashboard `chartData` (lines 601-618): for `i = 6` down to `0`, take the
day `i` days before today, filter the log store to that day and sum its food
calories.  `k`-th produced point is for `i = 6 - k`. -/
def chartData (logs : List LogEntry) (tz now : ℤ) : List ChartPoint :=
  (List.range 7).map
    (fun (k : ℕ) =>
      let i : ℤ := 6 - (k : ℤ)
      let day := dayIndex tz now - i
      let dailyLogs := logs.filter (fun log => dayIndex tz log.timestamp == day)
      { day := day, calories := dayFoodCalories dailyLogs })

/-- Activity multiplier lookup of the Dashboard target computation
(lines 625-631). -/
def activityMultipliers : ActivityLevel → ℚ
  | ActivityLevel.sedentary => 1.2
  | ActivityLevel.light => 1.375
  | ActivityLevel.moderate => 1.55
  | ActivityLevel.active => 1.725
  | ActivityLevel.athlete => 1.9

/-- Result record of the Dashboard target useMemo. -/
structure TargetResult where
  calorieTarget : ℤ
  targetProtein : ℤ
  targetCarbs : ℤ
  targetFat : ℤ
  adviceMessage : String
deriving DecidableEq, Repr

/-- Dashboard dynamic TDEE & goal calculation (lines 621-673): Mifflin-St Jeor
BMR with a male/other gender branch, rounded TDEE by activity multiplier,
goal- and training-load-dependent calorie target, protein factor and advice
message, then protein/fat/carb gram targets. -/
def targetEngine (profile : UserProfile) (exerciseFocus : Bool) : TargetResult :=
  let bmr0 := 10 * profile.weightKg + 6.25 * profile.heightCm - 5 * profile.age
  let bmr := bmr0 + (if profile.gender == Gender.male then 5 else -161)
  let tdee := jround (bmr * activityMultipliers profile.activityLevel)
  let branch : ℤ × ℚ × String :=
    match profile.goal with
    | Goal.lose_fat =>
        if exerciseFocus then
          (tdee - 250, 2.0, "Workout detected: Deficit reduced & Protein bumped for recovery.")
        else
          (tdee - 500, 1.8, "")
    | Goal.gain_muscle =>
        if exerciseFocus then
          (tdee + 300, 2.2, "Great work! Fuel up for growth.")
        else
          (tdee + 300, 2.0, "")
    | Goal.maintain =>
        if exerciseFocus then
          (tdee, 1.6, "")
        else
          (tdee, 1.4, "")
  let target := branch.1
  let proteinFactor := branch.2.1
  let msg := branch.2.2
  let targetProtein := jround (profile.weightKg * proteinFactor)
  let targetFat := jround (((target : ℚ) * 0.25) / 9)
  let targetCarbs :=
    max 0 (jround (((target : ℚ) - (targetProtein : ℚ) * 4 - (targetFat : ℚ) * 9) / 4))
  { calorieTarget := target
    targetProtein := targetProtein
    targetCarbs := targetCarbs
    targetFat := targetFat
    adviceMessage := msg }

/-! ## Food item rescaling (`EntryForm.tsx`, `updateItemQuantity`, lines 259-271) -/

/-- `updateItemQuantity` of EntryForm: set the quantity of the item at
`index` and recompute its current macros from the stored per-unit base
values — integer rounding for calories, one decimal place for
protein/carbs/fat. -/
def updateItemQuantity (items : List FoodItem) (index : ℕ) (newQty : ℚ) : List FoodItem :=
  match items[index]? with
  | none => items
  | some item =>
      items.set index
        { item with
          quantity := newQty
          calories := ((jround (item.baseCalories * newQty) : ℤ) : ℚ)
          protein := ((jround (item.baseProtein * newQty * 10) : ℤ) : ℚ) / 10
          carbs := ((jround (item.baseCarbs * newQty * 10) : ℤ) : ℚ) / 10
          fat := ((jround (item.baseFat * newQty * 10) : ℤ) : ℚ) / 10 }

/-! ## Remote estimator transport (`src/services/geminiService.ts`) -/

/-- The rate-limit classifier inside the `callApi` catch block (line 44):
the thrown message mentions 429, 503 or "busy". -/
def isRateLimit (msg : String) : Bool :=
  strIncludes msg "429" || strIncludes msg "503" || strIncludes msg "busy"

/-- The retry loop of `callApi` (lines 6-62).  `attempts n` is the outcome of
the `n`-th fetch/response-processing round (the whole `try` body collapsed to
its returned value or thrown message).  `remaining` counts the loop
iterations still allowed, so the current index is `i = retries - remaining`;
the second component collects the backoff delays actually slept
(`2^(i+1) * 1500` ms).  The `remaining = 0` case is the fall-through end of
the `for` loop, unreachable for `retries ≥ 1`. -/
def callApiLoop (attempts : ℕ → Except String α) (retries : ℕ) :
    ℕ → List ℕ → Except String α × List ℕ
  | 0, delays => (Except.error "loop exhausted", delays)
  | remaining + 1, delays =>
      let i := retries - (remaining + 1)
      match attempts i with
      | Except.ok v => (Except.ok v, delays)
      | Except.error msg =>
          let isLastAttempt := remaining == 0
          if isLastAttempt then (Except.error msg, delays)
          else if !isRateLimit msg && decide (i > 0) then (Except.error msg, delays)
          else
            let delay := 2 ^ (i + 1) * 1500
            callApiLoop attempts retries remaining (delays ++ [delay])

/-- `callApi` with an explicit retry budget (its TypeScript default is 3). -/
def callApi (attempts : ℕ → Except String α) (retries : ℕ) :
    Except String α × List ℕ :=
  callApiLoop attempts retries retries []

/-- Remote payload of the `estimateExerciseCalories` action: both fields may
be missing from the JSON response. -/
structure ExerciseEstimate where
  calories : Option ℚ
  note : Option String
deriving DecidableEq, Repr

/-- `estimateExerciseCalories` (geminiService.ts lines 139-161) with the
remote call's outcome made explicit: on success the remote calories are
coerced to 0 when missing (`result.calories || 0`) and the note to the empty
string; on any failure a local MET-based estimate is produced with a fixed
offline note, so the failure is never propagated. -/
def estimateExerciseCalories (remote : Except String ExerciseEstimate)
    (duration : ℚ) (intensity : String) (profile : UserProfile) : ℚ × String :=
  match remote with
  | Except.ok result => (result.calories.getD 0, result.note.getD "")
  | Except.error _ =>
      let met : ℚ :=
        if intensity == "low" then 4
        else if intensity == "medium" then 8
        else if intensity == "high" then 12
        else 6
      let estCalories := jround ((met * 3.5 * profile.weightKg) / 200 * duration)
      ((estCalories : ℚ), "Offline estimate (API unavailable).")

/-! ## Backup export/import (App root component, `src/unnamed/part_004`) -/

/-- Whole-session persisted state owned by the App component. -/
structure AppState where
  profile : UserProfile
  logs : List LogEntry
  chatHistory : List ChatMessage
deriving DecidableEq, Repr

/-- `INITIAL_PROFILE` of the App component. -/
def INITIAL_PROFILE : UserProfile :=
  { name := "User"
    age := 30
    heightCm := 175
    weightKg := 70
    gender := Gender.male
    activityLevel := ActivityLevel.moderate
    goal := Goal.maintain
    dietaryPreferences := "none" }

/-- A backup document as seen by `importData` after `JSON.parse`:
either the parse threw (`malformed`), or we have a JSON object whose
`profile` and `logs` fields are each present or absent.  JSON
(de)serialization of the well-typed values is modelled as the identity,
which is exactly byte-equivalence after JSON normalization. -/
inductive BackupDoc
  | malformed
  | parsed (profile : Option UserProfile) (logs : Option (List LogEntry))
deriving DecidableEq, Repr

/-- `exportData` (part_004 lines 151-162): serialize `{ profile, logs }`. -/
def exportData (st : AppState) : BackupDoc :=
  BackupDoc.parsed (some st.profile) (some st.logs)

/-- `importData`'s recognizable-shape test `data.profile && data.logs`
(part_004 line 174): both fields present. -/
def recognizable : BackupDoc → Bool
  | BackupDoc.parsed (some _) (some _) => true
  | _ => false

/-- `importData` (part_004 lines 164-185): on a parse failure or a document
without both a `profile` and a `logs` field, the state is untouched and an
error alert is shown; otherwise the document's profile and logs replace the
stored ones (the chat transcript is not part of the backup and is kept). -/
def importData (st : AppState) (doc : BackupDoc) : AppState × String :=
  match doc with
  | BackupDoc.malformed => (st, "Failed to parse backup file.")
  | BackupDoc.parsed (some p) (some l) =>
      ({ st with profile := p, logs := l }, "Data restored successfully!")
  | BackupDoc.parsed _ _ => (st, "Invalid backup file format.")

/-! ## Spec-side formulations used to state the claims -/

/-- Per-entry contribution to the daily totals as the specification words it:
a food entry contributes the sums of its items' calories/protein/carbs/fat,
an exercise entry its calories burned, a note entry zero. -/
def specEntryTotals (l : LogEntry) : Totals :=
  match l.type with
  | EntryType.food =>
      { calories := ((l.items.getD []).map FoodItem.calories).sum
        protein := ((l.items.getD []).map FoodItem.protein).sum
        carbs := ((l.items.getD []).map FoodItem.carbs).sum
        fat := ((l.items.getD []).map FoodItem.fat).sum
        burned := 0 }
  | EntryType.exercise =>
      { calories := 0, protein := 0, carbs := 0, fat := 0
        burned := (l.exercise.map ExerciseItem.caloriesBurned).getD 0 }
  | EntryType.note =>
      { calories := 0, protein := 0, carbs := 0, fat := 0, burned := 0 }

/-- Per-entry calorie contribution to the trend chart as the specification
words it: food entries contribute their items' calorie sum, everything else
(exercise in particular) is excluded. -/
def specFoodCalories (l : LogEntry) : ℚ :=
  match l.type with
  | EntryType.food => ((l.items.getD []).map FoodItem.calories).sum
  | _ => 0

/-- The specification's Training-Load Detector example entry:
"Deadlift Strength Session" with low intensity. -/
def deadliftEntry : LogEntry :=
  { id := "1"
    timestamp := 0
    type := EntryType.exercise
    items := none
    exercise := some
      { name := "Deadlift Strength Session"
        durationMinutes := 30
        caloriesBurned := 0
        intensity := Intensity.low }
    noteContent := none }

/-! ## Helper lemmas -/

/-- `jround` agrees with any integer the half-up bounds pin down. -/
theorem jround_eq (q : ℚ) (n : ℤ) (h1 : (n : ℚ) ≤ q + 1/2) (h2 : q + 1/2 < n + 1) :
    jround q = n := by
  unfold jround
  rw [Int.floor_eq_iff]
  constructor
  · exact_mod_cast h1
  · exact_mod_cast h2

theorem charsHasPre_iff (p t : List Char) :
    charsHasPre p t = true ↔ ∃ r, t = p ++ r := by
  induction p generalizing t with
  | nil => simp [charsHasPre]
  | cons x xs ih =>
      cases t with
      | nil =>
          simp [charsHasPre]
      | cons c cs =>
          simp only [charsHasPre, Bool.and_eq_true, beq_iff_eq, ih, List.cons_append,
            List.cons.injEq]
          constructor
          · rintro ⟨rfl, r, rfl⟩
            exact ⟨r, rfl, rfl⟩
          · rintro ⟨r, rfl, rfl⟩
            exact ⟨rfl, r, rfl⟩

theorem containsSub_iff (pat t : List Char) :
    containsSub pat t = true ↔ ∃ a b, t = a ++ pat ++ b := by
  induction t with
  | nil =>
      simp only [containsSub, charsHasPre_iff]
      constructor
      · rintro ⟨r, hr⟩
        exact ⟨[], r, by simpa using hr⟩
      · rintro ⟨a, b, hab⟩
        rcases List.append_eq_nil.mp (List.append_eq_nil.mp hab.symm).1 with ⟨-, h2⟩
        exact ⟨b, by simp [← h2, (List.append_eq_nil.mp hab.symm).2]⟩
  | cons c cs ih =>
      simp only [containsSub, Bool.or_eq_true, charsHasPre_iff, ih]
      constructor
      · rintro (⟨r, hr⟩ | ⟨a, b, hab⟩)
        · exact ⟨[], r, by simpa using hr⟩
        · exact ⟨c :: a, b, by simp [hab]⟩
      · rintro ⟨a, b, hab⟩
        cases a with
        | nil =>
            left
            exact ⟨b, by simpa using hab⟩
        | cons a0 as =>
            right
            simp only [List.cons_append, List.cons.injEq] at hab
            exact ⟨as, b, hab.2⟩

/-- `strIncludes` is substring occurrence. -/
theorem strIncludes_iff (s pat : String) :
    strIncludes s pat = true ↔ ∃ a b, s.data = a ++ pat.data ++ b :=
  containsSub_iff pat.data s.data

theorem foldl_items_eq (items : List FoodItem) (a : Totals) :
    items.foldl
      (fun a item =>
        { a with
          calories := a.calories + item.calories
          protein := a.protein + item.protein
          carbs := a.carbs + item.carbs
          fat := a.fat + item.fat })
      a =
    { a with
      calories := a.calories + (items.map FoodItem.calories).sum
      protein := a.protein + (items.map FoodItem.protein).sum
      carbs := a.carbs + (items.map FoodItem.carbs).sum
      fat := a.fat + (items.map FoodItem.fat).sum } := by
  induction items generalizing a with
  | nil => simp
  | cons x xs ih =>
      simp only [List.foldl_cons, List.map_cons, List.sum_cons, ih]
      simp [add_assoc]

theorem totalsStep_eq (acc : Totals) (l : LogEntry) :
    totalsStep acc l =
      { calories := acc.calories + (specEntryTotals l).calories
        protein := acc.protein + (specEntryTotals l).protein
        carbs := acc.carbs + (specEntryTotals l).carbs
        fat := acc.fat + (specEntryTotals l).fat
        burned := acc.burned + (specEntryTotals l).burned } := by
  obtain ⟨id, ts, ty, items, ex, note⟩ := l
  cases ty
  · cases items with
    | none => simp [totalsStep, specEntryTotals]
    | some its => simp [totalsStep, specEntryTotals, foldl_items_eq]
  · cases ex with
    | none => simp [totalsStep, specEntryTotals]
    | some e => simp [totalsStep, specEntryTotals]
  · simp [totalsStep, specEntryTotals]

theorem foldl_totalsStep_eq (ls : List LogEntry) (acc : Totals) :
    ls.foldl totalsStep acc =
      { calories := acc.calories + (ls.map fun l => (specEntryTotals l).calories).sum
        protein := acc.protein + (ls.map fun l => (specEntryTotals l).protein).sum
        carbs := acc.carbs + (ls.map fun l => (specEntryTotals l).carbs).sum
        fat := acc.fat + (ls.map fun l => (specEntryTotals l).fat).sum
        burned := acc.burned + (ls.map fun l => (specEntryTotals l).burned).sum } := by
  induction ls generalizing acc with
  | nil => simp
  | cons x xs ih =>
      simp only [List.foldl_cons, List.map_cons, List.sum_cons, ih, totalsStep_eq]
      simp [add_assoc]

theorem foldl_calories_eq (items : List FoodItem) (c : ℚ) :
    items.foldl (fun s item => s + item.calories) c =
      c + (items.map FoodItem.calories).sum := by
  induction items generalizing c with
  | nil => simp
  | cons x xs ih =>
      simp only [List.foldl_cons, List.map_cons, List.sum_cons, ih]
      ring

theorem chartStep_eq (c : ℚ) (l : LogEntry) :
    chartStep c l = c + specFoodCalories l := by
  obtain ⟨id, ts, ty, items, ex, note⟩ := l
  cases ty
  · cases items with
    | none => simp [chartStep, specFoodCalories]
    | some its => simp [chartStep, specFoodCalories, foldl_calories_eq]
  · simp [chartStep, specFoodCalories]
  · simp [chartStep, specFoodCalories]

theorem foldl_chartStep_eq (ls : List LogEntry) (c : ℚ) :
    ls.foldl chartStep c = c + (ls.map specFoodCalories).sum := by
  induction ls generalizing c with
  | nil => simp
  | cons x xs ih =>
      simp only [List.foldl_cons, List.map_cons, List.sum_cons, chartStep_eq, ih]
      ring

theorem dayFoodCalories_eq (ls : List LogEntry) :
    dayFoodCalories ls = (ls.map specFoodCalories).sum := by
  unfold dayFoodCalories
  simp [foldl_chartStep_eq]

/-- Evaluation of the Target Engine at the default profile (70 kg, 175 cm,
age 30, male, moderate activity, maintain) without training load. -/
theorem targetEngine_initial_eval :
    targetEngine INITIAL_PROFILE false =
      { calorieTarget := 2556, targetProtein := 98, targetCarbs := 381, targetFat := 71,
        adviceMessage := "" } := by
  have hg : (Gender.male == Gender.male) = true := rfl
  have h1 : jround ((10 * (70:ℚ) + 6.25 * 175 - 5 * 30 + 5) * 1.55) = 2556 := by
    apply jround_eq <;> norm_num
  have h2 : jround ((70:ℚ) * 1.4) = 98 := by
    apply jround_eq <;> norm_num
  have h3 : jround (((2556:ℚ) * 0.25) / 9) = 71 := by
    apply jround_eq <;> norm_num
  have h4 : jround (((2556:ℚ) - 98 * 4 - 71 * 9) / 4) = 381 := by
    apply jround_eq <;> norm_num
  simp [targetEngine, INITIAL_PROFILE, activityMultipliers, hg, h1, h2, h3, h4]

/-! ## Claims -/

/-- Claim C1: for every Profile and training-load boolean, the Target Engine
computes its outputs exactly by the specified pipeline:
`bmr = 10*weightKg + 6.25*heightCm - 5*age`, plus 5 if gender is male and
minus 161 otherwise; `tdee = round(bmr * activity multiplier)` with
sedentary=1.2, light=1.375, moderate=1.55, active=1.725, athlete=1.9; the
goal/training-load branch sets the calorie target (TDEE-250 or TDEE-500 for
lose_fat with/without load, TDEE+300 for gain_muscle, TDEE for maintain),
the protein factor (2.0/1.8, 2.2/2.0, 1.6/1.4 respectively) and the advice
message; `targetProtein = round(weightKg * proteinFactor)`;
`targetFat = round(calorieTarget*0.25/9)`;
`targetCarbs = max(0, round((calorieTarget - targetProtein*4 - targetFat*9)/4))`. -/
theorem targetEngine_follows_pipeline (p : UserProfile) (load : Bool) :
    targetEngine p load =
      (let bmr : ℚ := 10 * p.weightKg + 6.25 * p.heightCm - 5 * p.age +
          (if p.gender = Gender.male then 5 else -161);
       let tdee : ℤ := jround (bmr *
          (match p.activityLevel with
           | ActivityLevel.sedentary => (1.2 : ℚ)
           | ActivityLevel.light => 1.375
           | ActivityLevel.moderate => 1.55
           | ActivityLevel.active => 1.725
           | ActivityLevel.athlete => 1.9));
       let target : ℤ :=
          match p.goal with
          | Goal.lose_fat => if load then tdee - 250 else tdee - 500
          | Goal.gain_muscle => tdee + 300
          | Goal.maintain => tdee;
       let proteinFactor : ℚ :=
          match p.goal with
          | Goal.lose_fat => if load then 2.0 else 1.8
          | Goal.gain_muscle => if load then 2.2 else 2.0
          | Goal.maintain => if load then 1.6 else 1.4;
       let msg : String :=
          match p.goal with
          | Goal.lose_fat =>
              if load then "Workout detected: Deficit reduced & Protein bumped for recovery."
              else ""
          | Goal.gain_muscle => if load then "Great work! Fuel up for growth." else ""
          | Goal.maintain => "";
       let targetProtein : ℤ := jround (p.weightKg * proteinFactor);
       let targetFat : ℤ := jround ((target : ℚ) * 0.25 / 9);
       let targetCarbs : ℤ :=
          max 0 (jround (((target : ℚ) - (targetProtein : ℚ) * 4 - (targetFat : ℚ) * 9) / 4));
       { calorieTarget := target
         targetProtein := targetProtein
         targetCarbs := targetCarbs
         targetFat := targetFat
         adviceMessage := msg }) := by
  obtain ⟨n, a, h, w, g, act, goal, d⟩ := p
  cases g <;> cases act <;> cases goal <;> cases load <;> rfl

/-- Claim C2, counterexample: at Profile{weightKg=70, heightCm=175, age=30,
gender=male, activityLevel=moderate, goal=maintain} with trainingLoad=false
the Target Engine does not return the claimed values — already the claimed
intermediate bmr is wrong, `10*70 + 6.25*175 - 5*30 + 5 = 1648.75`, not
1693.75, so calorieTarget is 2556, not 2625. -/
theorem targetEngine_example_refuted :
    ¬ ((10 * (70:ℚ) + 6.25 * 175 - 5 * 30 + 5 = 1693.75) ∧
       (targetEngine INITIAL_PROFILE false).calorieTarget = 2625 ∧
       (targetEngine INITIAL_PROFILE false).targetProtein = 98 ∧
       (targetEngine INITIAL_PROFILE false).targetFat = 73 ∧
       (targetEngine INITIAL_PROFILE false).targetCarbs = 394) := by
  rintro ⟨h, -⟩
  norm_num at h

/-- Claim C2, amended: for the input Profile{weightKg=70, heightCm=175,
age=30, gender=male, activityLevel=moderate, goal=maintain} with
trainingLoad=false, the Target Engine returns calorieTarget=2556,
targetProtein=98, targetFat=71, targetCarbs=381, with intermediate values
bmr=1648.75 and TDEE=2556. -/
theorem targetEngine_example_eval :
    (10 * (70:ℚ) + 6.25 * 175 - 5 * 30 + 5 = 1648.75) ∧
    jround ((1648.75 : ℚ) * 1.55) = 2556 ∧
    targetEngine INITIAL_PROFILE false =
      { calorieTarget := 2556, targetProtein := 98, targetCarbs := 381, targetFat := 71,
        adviceMessage := "" } := by
  refine ⟨by norm_num, ?_, targetEngine_initial_eval⟩
  apply jround_eq <;> norm_num

/-- Claim C3: for every Log Store and target day, the Daily Aggregator
returns `{calories, protein, carbs, fat, burned}` equal to the sum, over all
entries whose timestamp falls in that day, of each food entry's items'
calories/protein/carbs/fat and each exercise entry's caloriesBurned, with
note entries contributing zero; in particular, for any day with zero
matching entries it returns all-zero totals rather than failing or
returning nothing. -/
theorem todayTotals_spec (logs : List LogEntry) (tz now : ℤ) :
    (todayTotals logs tz now =
      { calories := ((logs.filter fun l => dayIndex tz l.timestamp == dayIndex tz now).map
            fun l => (specEntryTotals l).calories).sum
        protein := ((logs.filter fun l => dayIndex tz l.timestamp == dayIndex tz now).map
            fun l => (specEntryTotals l).protein).sum
        carbs := ((logs.filter fun l => dayIndex tz l.timestamp == dayIndex tz now).map
            fun l => (specEntryTotals l).carbs).sum
        fat := ((logs.filter fun l => dayIndex tz l.timestamp == dayIndex tz now).map
            fun l => (specEntryTotals l).fat).sum
        burned := ((logs.filter fun l => dayIndex tz l.timestamp == dayIndex tz now).map
            fun l => (specEntryTotals l).burned).sum }) ∧
    ((logs.filter fun l => dayIndex tz l.timestamp == dayIndex tz now) = [] →
      todayTotals logs tz now = { calories := 0, protein := 0, carbs := 0, fat := 0, burned := 0 }) := by
  constructor
  · unfold todayTotals
    rw [foldl_totalsStep_eq]
    simp
  · intro hempty
    unfold todayTotals
    rw [hempty]
    rfl

/-- Claim C3 witness: on an empty log store the Daily Aggregator returns
all-zero totals. -/
theorem todayTotals_spec_witness :
    todayTotals [] 0 0 = { calories := 0, protein := 0, carbs := 0, fat := 0, burned := 0 } :=
  (todayTotals_spec [] 0 0).2 rfl

/-- The per-entry strength condition, spelled out: exercise entry whose
intensity is high or whose lower-cased name contains "weight", "strength"
or "lift" as a substring. -/
theorem strengthSignal_iff (l : LogEntry) :
    strengthSignal l = true ↔
      l.type = EntryType.exercise ∧ ∃ ex, l.exercise = some ex ∧
        (ex.intensity = Intensity.high ∨
          (∃ a b, (lowerStr ex.name).data = a ++ "weight".data ++ b) ∨
          (∃ a b, (lowerStr ex.name).data = a ++ "strength".data ++ b) ∨
          (∃ a b, (lowerStr ex.name).data = a ++ "lift".data ++ b)) := by
  obtain ⟨id, ts, ty, items, ex, note⟩ := l
  cases ex with
  | none => simp [strengthSignal]
  | some e =>
      simp [strengthSignal, Bool.and_eq_true, Bool.or_eq_true, beq_iff_eq,
        strIncludes_iff, or_assoc]

/-- Claim C4: for every set of a day's exercise entries, the Training-Load
Detector returns true if and only if some exercise entry has intensity high
or its name, lowered to lower case, contains one of the substrings "weight",
"strength" or "lift"; in particular an exercise entry named
"Deadlift Strength Session" with intensity=low yields trainingLoad=true. -/
theorem hasStrength_iff (logs : List LogEntry) :
    (hasStrength logs = true ↔
      ∃ l ∈ logs, l.type = EntryType.exercise ∧ ∃ ex, l.exercise = some ex ∧
        (ex.intensity = Intensity.high ∨
          (∃ a b, (lowerStr ex.name).data = a ++ "weight".data ++ b) ∨
          (∃ a b, (lowerStr ex.name).data = a ++ "strength".data ++ b) ∨
          (∃ a b, (lowerStr ex.name).data = a ++ "lift".data ++ b))) ∧
    hasStrength [deadliftEntry] = true := by
  constructor
  · unfold hasStrength
    rw [List.any_eq_true]
    exact exists_congr fun l => and_congr_right fun _ => strengthSignal_iff l
  · decide

/-- Claim C5: after a quantity change setting quantity to `q`, the updated
FoodItem satisfies `calories = round(baseCalories * q)` (integer) and
`protein/carbs/fat = round(base * q * 10)/10` (one decimal place). -/
theorem updateItemQuantity_invariant (items : List FoodItem) (i : ℕ) (q : ℚ)
    (h : i < items.length) (it' : FoodItem)
    (hit : (updateItemQuantity items i q)[i]? = some it') :
    it'.quantity = q ∧
    it'.calories = ((jround (it'.baseCalories * q) : ℤ) : ℚ) ∧
    it'.protein = ((jround (it'.baseProtein * q * 10) : ℤ) : ℚ) / 10 ∧
    it'.carbs = ((jround (it'.baseCarbs * q * 10) : ℤ) : ℚ) / 10 ∧
    it'.fat = ((jround (it'.baseFat * q * 10) : ℤ) : ℚ) / 10 := by
  have hsome : items[i]? = some items[i] := List.getElem?_eq_getElem h
  unfold updateItemQuantity at hit
  rw [hsome] at hit
  rw [List.getElem?_set_eq_of_lt _ h] at hit
  obtain rfl := Option.some.injEq _ _ ▸ hit.symm
  simp

/-- Claim C5 witness: scaling the manual-entry default item (base 100 kcal,
5 g protein, 10 g carbs, 5 g fat per unit) to quantity 2 yields the item
with 200 kcal, 10 g protein, 20 g carbs, 10 g fat, and that item satisfies
the rounding invariant. -/
theorem updateItemQuantity_invariant_witness :
    (updateItemQuantity
        [{ name := "New Item", quantity := 1, unit := "serving",
           calories := 100, protein := 5, carbs := 10, fat := 5,
           baseCalories := 100, baseProtein := 5, baseCarbs := 10, baseFat := 5 }] 0 2)[0]? =
      some { name := "New Item", quantity := 2, unit := "serving",
             calories := 200, protein := 10, carbs := 20, fat := 10,
             baseCalories := 100, baseProtein := 5, baseCarbs := 10, baseFat := 5 } ∧
    (200 : ℚ) = ((jround ((100 : ℚ) * 2) : ℤ) : ℚ) ∧
    (10 : ℚ) = ((jround ((5 : ℚ) * 2 * 10) : ℤ) : ℚ) / 10 ∧
    (20 : ℚ) = ((jround ((10 : ℚ) * 2 * 10) : ℤ) : ℚ) / 10 ∧
    (10 : ℚ) = ((jround ((5 : ℚ) * 2 * 10) : ℤ) : ℚ) / 10 := by
  have e1 : jround ((100 : ℚ) * 2) = 200 := by apply jround_eq <;> norm_num
  have e2 : jround ((5 : ℚ) * 2 * 10) = 100 := by apply jround_eq <;> norm_num
  have e3 : jround ((10 : ℚ) * 2 * 10) = 200 := by apply jround_eq <;> norm_num
  have hit : (updateItemQuantity
      [{ name := "New Item", quantity := 1, unit := "serving",
         calories := 100, protein := 5, carbs := 10, fat := 5,
         baseCalories := 100, baseProtein := 5, baseCarbs := 10, baseFat := 5 }] 0 2)[0]? =
      some { name := "New Item", quantity := 2, unit := "serving",
             calories := 200, protein := 10, carbs := 20, fat := 10,
             baseCalories := 100, baseProtein := 5, baseCarbs := 10, baseFat := 5 } := by
    simp [updateItemQuantity, e1, e2, e3]
    norm_num
  refine ⟨hit, ?_⟩
  have h := updateItemQuantity_invariant _ 0 2 (by simp) _ hit
  simpa using h

/-- Claim C6: for every Log Store, the Trend Window returns an ordered
sequence of exactly 7 points, oldest first, covering the days from today
minus 6 through today, where each point's calories value is the sum of
food-entry item calories for that day and exercise entries are excluded. -/
theorem chartData_spec (logs : List LogEntry) (tz now : ℤ) :
    (chartData logs tz now).length = 7 ∧
    chartData logs tz now =
      (List.range 7).map (fun (k : ℕ) =>
        { day := dayIndex tz now - 6 + (k : ℤ)
          calories := ((logs.filter fun l =>
              dayIndex tz l.timestamp == dayIndex tz now - 6 + (k : ℤ)).map
            specFoodCalories).sum }) := by
  constructor
  · simp [chartData]
  · unfold chartData
    apply List.map_congr_left
    intro k _
    have hday : dayIndex tz now - (6 - (k : ℤ)) = dayIndex tz now - 6 + (k : ℤ) := by ring
    simp only [hday, dayFoodCalories_eq]

/-- Claim C7, counterexample: with the default 3 attempts, a non-transient
error ("API request failed", which mentions neither 429, 503 nor "busy")
raised on the first attempt does NOT fail immediately — the wrapper sleeps
3000 ms and retries once, refuting "every non-transient error fails
immediately without any retry". -/
theorem callApi_nontransient_retried :
    isRateLimit "API request failed" = false ∧
    (callApi (fun _ => Except.error "API request failed") 3 :
        Except String Unit × List ℕ) =
      (Except.error "API request failed", [3000]) ∧
    ([3000] : List ℕ) ≠ [] := by
  refine ⟨by decide, ?_, by decide⟩
  rfl

/-- Claim C7, amended: with the default 3 attempts, a failure on the first
attempt is always retried after a 3000 ms delay (even a non-transient one);
a failure on the second attempt is retried after a further 6000 ms only when
it is transient (message mentioning 429, 503 or "busy") and otherwise fails
immediately with no further delay; the third attempt's outcome is final.
Successes return at once with no delay. -/
theorem callApi_retry_behavior (att : ℕ → Except String Unit) :
    (∀ v, att 0 = Except.ok v → callApi att 3 = (Except.ok v, [])) ∧
    (∀ m v, att 0 = Except.error m → att 1 = Except.ok v →
      callApi att 3 = (Except.ok v, [3000])) ∧
    (∀ m m', att 0 = Except.error m → att 1 = Except.error m' → isRateLimit m' = false →
      callApi att 3 = (Except.error m', [3000])) ∧
    (∀ m m', att 0 = Except.error m → att 1 = Except.error m' → isRateLimit m' = true →
      callApi att 3 = (att 2, [3000, 6000])) := by
  refine ⟨?_, ?_, ?_, ?_⟩
  · intro v h
    simp [callApi, callApiLoop, h]
  · intro m v h0 h1
    simp [callApi, callApiLoop, h0, h1]
  · intro m m' h0 h1 hrl
    simp [callApi, callApiLoop, h0, h1, hrl]
  · intro m m' h0 h1 hrl
    cases h2 : att 2 with
    | ok v => simp [callApi, callApiLoop, h0, h1, h2, hrl]
    | error m2 => simp [callApi, callApiLoop, h0, h1, h2, hrl]

/-- Claim C7 witness: three consecutive transient failures ("busy") exhaust
the 3 attempts with backoff delays 3000 ms then 6000 ms. -/
theorem callApi_retry_behavior_witness :
    (callApi (fun _ => Except.error "busy") 3 : Except String Unit × List ℕ) =
      (Except.error "busy", [3000, 6000]) := by
  have h := (callApi_retry_behavior (fun _ => Except.error "busy")).2.2.2 "busy" "busy"
    rfl rfl (by decide)
  exact h

/-- Claim C8: for every imported backup document, if the document lacks a
recognizable profile/logs shape, import rejects it, leaves the stored
Profile and Log Store completely unchanged and surfaces a user-visible
(non-empty, non-success) message; if the shape is recognizable, import
applies exactly the profile and logs present in the document and nothing
else (the chat transcript is untouched). -/
theorem importData_spec (st : AppState) (doc : BackupDoc) :
    (recognizable doc = false →
      (importData st doc).1 = st ∧
      (importData st doc).2 ≠ "Data restored successfully!" ∧
      (importData st doc).2 ≠ "") ∧
    (∀ p l, doc = BackupDoc.parsed (some p) (some l) →
      importData st doc =
        ({ profile := p, logs := l, chatHistory := st.chatHistory }, "Data restored successfully!")) := by
  constructor
  · intro hrec
    cases doc with
    | malformed =>
        refine ⟨rfl, ?_, ?_⟩
        · show "Failed to parse backup file." ≠ "Data restored successfully!"
          decide
        · show "Failed to parse backup file." ≠ ""
          decide
    | parsed po lo =>
        cases po with
        | none =>
            cases lo with
            | none =>
                refine ⟨rfl, ?_, ?_⟩
                · show "Invalid backup file format." ≠ "Data restored successfully!"
                  decide
                · show "Invalid backup file format." ≠ ""
                  decide
            | some l =>
                refine ⟨rfl, ?_, ?_⟩
                · show "Invalid backup file format." ≠ "Data restored successfully!"
                  decide
                · show "Invalid backup file format." ≠ ""
                  decide
        | some p =>
            cases lo with
            | none =>
                refine ⟨rfl, ?_, ?_⟩
                · show "Invalid backup file format." ≠ "Data restored successfully!"
                  decide
                · show "Invalid backup file format." ≠ ""
                  decide
            | some l => simp [recognizable] at hrec
  · rintro p l rfl
    rfl

/-- Claim C8 witness: importing an unparsable document into the default
state leaves it unchanged and surfaces the parse-failure message. -/
theorem importData_spec_witness :
    (importData { profile := INITIAL_PROFILE, logs := [], chatHistory := [] }
        BackupDoc.malformed).1 =
      { profile := INITIAL_PROFILE, logs := [], chatHistory := [] } ∧
    (importData { profile := INITIAL_PROFILE, logs := [], chatHistory := [] }
        BackupDoc.malformed).2 ≠ "Data restored successfully!" ∧
    (importData { profile := INITIAL_PROFILE, logs := [], chatHistory := [] }
        BackupDoc.malformed).2 ≠ "" :=
  (importData_spec { profile := INITIAL_PROFILE, logs := [], chatHistory := [] }
      BackupDoc.malformed).1 rfl

/-- Claim C9: exporting the backup document and importing it back
reproduces a Profile and Log Store identical to the originals — importing
into the same state is the identity on the state, and importing into any
other state restores exactly the exported profile and logs. -/
theorem export_import_roundtrip (st st2 : AppState) :
    importData st (exportData st) = (st, "Data restored successfully!") ∧
    (importData st2 (exportData st)).1.profile = st.profile ∧
    (importData st2 (exportData st)).1.logs = st.logs :=
  ⟨rfl, rfl, rfl⟩

/-- Claim C10: `estimateExerciseCalories` never propagates a remote failure:
whenever the remote call fails it returns the local estimate
`round((met * 3.5 * weightKg) / 200 * duration)` — met 4 for low, 8 for
medium, 12 for high and 6 for any other intensity string — together with a
non-empty offline note; on remote success it returns the remote calories
coerced to 0 when missing. -/
theorem estimateExerciseCalories_spec (remote : Except String ExerciseEstimate)
    (dur : ℚ) (intensity : String) (profile : UserProfile) :
    (∀ e, remote = Except.error e →
      estimateExerciseCalories remote dur intensity profile =
        (((jround (((if intensity == "low" then (4:ℚ)
              else if intensity == "medium" then 8
              else if intensity == "high" then 12
              else 6) * 3.5 * profile.weightKg) / 200 * dur) : ℤ) : ℚ),
         "Offline estimate (API unavailable).") ∧
      "Offline estimate (API unavailable)." ≠ "") ∧
    (∀ r, remote = Except.ok r →
      estimateExerciseCalories remote dur intensity profile =
        (r.calories.getD 0, r.note.getD "")) := by
  constructor
  · rintro e rfl
    exact ⟨rfl, by decide⟩
  · rintro r rfl
    rfl

/-- Claim C10 witness: a failing remote call for 30 minutes of high-intensity
exercise at 70 kg yields the offline estimate 441 kcal with the offline
note. -/
theorem estimateExerciseCalories_spec_witness :
    estimateExerciseCalories (Except.error "boom") 30 "high" INITIAL_PROFILE =
      (441, "Offline estimate (API unavailable).") := by
  have h := (estimateExerciseCalories_spec (Except.error "boom") 30 "high"
    INITIAL_PROFILE).1 "boom" rfl
  rw [h.1]
  have hmet : (if ("high" : String) == "low" then (4:ℚ)
      else if ("high" : String) == "medium" then 8
      else if ("high" : String) == "high" then 12
      else 6) = 12 := by rfl
  have hj : jround ((12:ℚ) * 3.5 * 70 / 200 * 30) = 441 := by
    apply jround_eq <;> norm_num
  simp [INITIAL_PROFILE, hmet, hj]

end NutriWise
